import Mathlib

/-!
Formal model of the browser console widget of this repository.

Two source variants are modelled:

* `src/VirtualConsoleComponentRender.js` (namespace `VirtualConsole`):
  the main variant, with a process-wide `activeConsoleAppender` slot that
  routes intercepted `console.log` / `console.warn` / `console.error`
  calls directly to the attached widget, falling back to the
  `consoleMessageBuffer` FIFO while no widget is attached, plus the
  widget itself (incremental evaluator with `cumulativeExecutedCode`,
  command history, history navigation, clear action).

* `src/unnamed/part_000` (namespace `VirtualConsoleBufferOnly`):
  the earlier variant, which has no `activeConsoleAppender` at all and
  unconditionally pushes every intercepted call into the buffer.

The model is a shallow embedding: JavaScript instance/global mutable
state becomes explicit state records, and methods become pure functions
from state to state.  The iframe's `eval` is an external capability and
is passed in as an oracle `String → EvalResult`.  JavaScript function
identity (`Function.prototype.bind` returns a fresh function object on
every call) is modelled with a fresh-identity counter `nextFnId`:
every `.bind(this)` allocation yields a new `Nat` identity, so two
distinct `bind` results are never equal — exactly the reference
(in)equality that `===` observes.  An exception escaping a method is
modelled by an `Option String` component in the result (`some msg`
means the call threw `msg` out of the widget's boundary).
-/

namespace VirtualConsole

/-- A JavaScript value as the console formatter sees it
(`formatConsoleMessage`, lines 64–75 of the source): a primitive-like
value rendered by `String(arg)`, or an object (non-null), whose
`JSON.stringify(arg, null, 2)` either succeeds with a rendering
(`json = some j`) or throws — e.g. on circular structures — in which
case `String(arg)` (`strForm`) is used as fallback. -/
inductive JsArg where
  | prim (str : String)
  | obj (json : Option String) (strForm : String)
deriving DecidableEq

/-- Rendering of one argument inside `formatConsoleMessage`: objects try
`JSON.stringify` and fall back to `String(arg)` when it throws; other
values use `String(arg)`. -/
def formatArg : JsArg → String
  | .prim s => s
  | .obj (some j) _ => j
  | .obj none sf => sf

/-- Model of `formatConsoleMessage(args)` (source lines 64–75):
space-joined per-argument renderings. -/
def formatConsoleMessage (args : List JsArg) : String :=
  String.intercalate " " (args.map formatArg)

/-- Model of the JavaScript whitespace class `\s` (ASCII part), used by
`String.prototype.trim` and the `^(let|const|var|function|class)\s`
regex of `processInput`. -/
def isJsSpace (c : Char) : Bool :=
  c == ' ' || c == '\t' || c == '\n' || c == '\r' || c == '\x0b' || c == '\x0c'

/-- Model of JavaScript `input.trim()`: strip whitespace from both
ends. -/
def jsTrim (s : String) : String :=
  ⟨((s.data.dropWhile isJsSpace).reverse.dropWhile isJsSpace).reverse⟩

/-- One captured log entry (`messageEntry`, source lines 18/33/47):
`{ timestamp, type, message }`. -/
structure LogEntry where
  timestamp : String
  type : String
  message : String
deriving DecidableEq

/-- The module-level state of the interception layer of
`src/VirtualConsoleComponentRender.js`:
`consoleMessageBuffer` (line 9), `activeConsoleAppender` (line 12,
holding the identity of the registered bound function, if any),
the entries delivered through a widget's `appendMessage` (tagged with
the identity of the receiving widget's bound appender), the calls
forwarded to the original console functions (lines 27/41/55), and the
fresh-identity counter for `.bind` allocations. -/
structure GlobalConsole where
  consoleMessageBuffer : List LogEntry
  activeConsoleAppender : Option Nat
  delivered : List (Nat × LogEntry)
  originalCalls : List (String × List JsArg)
  nextFnId : Nat
deriving DecidableEq

/-- Model of the wrapped `console.log` (source lines 15–28): build the
entry, route it to the active appender if one is set, else push it on
the buffer, then forward the original arguments to `originalLog`. -/
def consoleLog (now : String) (args : List JsArg) (g : GlobalConsole) : GlobalConsole :=
  let messageEntry : LogEntry :=
    { timestamp := now, type := "LOG", message := formatConsoleMessage args }
  let g1 :=
    match g.activeConsoleAppender with
    | some k => { g with delivered := g.delivered ++ [(k, messageEntry)] }
    | none => { g with consoleMessageBuffer := g.consoleMessageBuffer ++ [messageEntry] }
  { g1 with originalCalls := g1.originalCalls ++ [("LOG", args)] }

/-- Model of the wrapped `console.warn` (source lines 30–42). -/
def consoleWarn (now : String) (args : List JsArg) (g : GlobalConsole) : GlobalConsole :=
  let messageEntry : LogEntry :=
    { timestamp := now, type := "WARN", message := formatConsoleMessage args }
  let g1 :=
    match g.activeConsoleAppender with
    | some k => { g with delivered := g.delivered ++ [(k, messageEntry)] }
    | none => { g with consoleMessageBuffer := g.consoleMessageBuffer ++ [messageEntry] }
  { g1 with originalCalls := g1.originalCalls ++ [("WARN", args)] }

/-- Model of the wrapped `console.error` (source lines 44–56). -/
def consoleError (now : String) (args : List JsArg) (g : GlobalConsole) : GlobalConsole :=
  let messageEntry : LogEntry :=
    { timestamp := now, type := "ERROR", message := formatConsoleMessage args }
  let g1 :=
    match g.activeConsoleAppender with
    | some k => { g with delivered := g.delivered ++ [(k, messageEntry)] }
    | none => { g with consoleMessageBuffer := g.consoleMessageBuffer ++ [messageEntry] }
  { g1 with originalCalls := g1.originalCalls ++ [("ERROR", args)] }

/-- The three intercepted severities. -/
inductive Severity where
  | log
  | warn
  | error
deriving DecidableEq

/-- The `type` string each severity tags its entries with. -/
def sevName : Severity → String
  | .log => "LOG"
  | .warn => "WARN"
  | .error => "ERROR"

/-- Dispatch one intercepted console call to the matching wrapper. -/
def dispatchCall : Severity → String → List JsArg → GlobalConsole → GlobalConsole
  | .log, now, args, g => consoleLog now args g
  | .warn, now, args, g => consoleWarn now args g
  | .error, now, args, g => consoleError now args g

/-- The `LogEntry` that the interceptor builds for one call event
`(severity, timestamp, args)`. -/
def entryOfEvt : Severity × String × List JsArg → LogEntry
  | (sev, now, args) =>
    { timestamp := now, type := sevName sev, message := formatConsoleMessage args }

/-- Run a sequence of intercepted console calls in order. -/
def runCalls (evts : List (Severity × String × List JsArg)) (g : GlobalConsole) :
    GlobalConsole :=
  evts.foldl (fun acc e => dispatchCall e.1 e.2.1 e.2.2 acc) g

/-- The `while` loop of `flushMessageBuffer` (source lines 350–355),
as structural recursion on the buffer: shift the front entry and
deliver it (via `this.appendMessage`, hence tagged with the flushing
widget's identity `k`), until the buffer is empty. -/
def drainBuffer (k : Nat) : List LogEntry → List (Nat × LogEntry) → List (Nat × LogEntry)
  | [], acc => acc
  | e :: rest, acc => drainBuffer k rest (acc ++ [(k, e)])

/-- Model of `flushMessageBuffer` (source lines 350–355) for the widget
whose appender identity is `k`: the buffer is drained front-to-back into
the delivered list and ends empty. -/
def flushMessageBuffer (k : Nat) (g : GlobalConsole) : GlobalConsole :=
  { g with
      consoleMessageBuffer := [],
      delivered := drainBuffer k g.consoleMessageBuffer g.delivered }

/-- Model of the registration tail of `connectedCallback` (source lines
180–188): allocate `this.appendMessage.bind(this)` (a fresh function
identity), store it in `activeConsoleAppender`, then flush the buffer
through this widget.  The DOM/template loading earlier in the method is
external and does not touch the interception state. -/
def connectedCallback (g : GlobalConsole) : GlobalConsole :=
  let k := g.nextFnId
  flushMessageBuffer k { g with activeConsoleAppender := some k, nextFnId := k + 1 }

/-- Model of `disconnectedCallback` (source lines 192–201): the
`ResizeObserver` teardown does not touch the interception state; then
the guard `activeConsoleAppender === this.appendMessage.bind(this)`
compares the slot against a freshly allocated `bind` result (a new
function identity), and only clears the slot when they are equal. -/
def disconnectedCallback (g : GlobalConsole) : GlobalConsole :=
  let k := g.nextFnId
  let g1 := { g with nextFnId := k + 1 }
  if g1.activeConsoleAppender = some k then
    { g1 with activeConsoleAppender := none }
  else g1

/-- The interception state right after the module's top-level code ran:
empty buffer, no active appender, nothing delivered or forwarded. -/
def initialGlobal : GlobalConsole :=
  { consoleMessageBuffer := []
    activeConsoleAppender := none
    delivered := []
    originalCalls := []
    nextFnId := 0 }

/-- A value produced by `this.iframeWindow.eval(...)` as `processInput`
observes it: JavaScript `undefined`, or a defined value whose
`JSON.stringify(v, null, 2)` (source line 427) succeeds with rendering
`json`, or a defined value on which `JSON.stringify` throws
(`errMessage` — e.g. a circular structure). -/
inductive JsValue where
  | undef
  | serializable (json : String)
  | unserializable (errMessage : String)
deriving DecidableEq

/-- Outcome of evaluating a program text in the iframe context:
a value, or a thrown error with its `e.message`. -/
inductive EvalResult where
  | ok (value : JsValue)
  | thrown (message : String)
deriving DecidableEq

/-- Per-widget state of `VirtualConsoleComponent`.  DOM elements that
may be absent (`this.textarea`, `this.inputElement`) are `Option`s
(`none` models a `null` query result); `textarea` carries the displayed
text (`textarea.value`).  `iframeWindow` is `some gen` once
`setupIframeContext` established a context, with `nextCtxGen` the
fresh-identity allocator for recreated iframe contexts.  The
`persisted*` fields model the `localStorage` slots written by
`setLocalStorageItem` (`none` = never written in this session). -/
structure ConsoleState where
  textarea : Option String
  inputValue : Option String
  consoleIframe : Bool
  iframeWindow : Option Nat
  nextCtxGen : Nat
  inputHistory : List String
  historyIndex : Int
  isConsoleVisible : Bool
  lastKnownWidth : String
  lastKnownHeight : String
  cumulativeExecutedCode : String
  persistedHistory : Option (List String)
  persistedVisible : Option String
  persistedWidth : Option String
  persistedHeight : Option String
deriving DecidableEq

/-- Display-line format of `appendMessage` (source line 445):
`[timestamp] [type] message` plus newline. -/
def fmtLine (timestamp type message : String) : String :=
  "[" ++ timestamp ++ "] [" ++ type ++ "] " ++ message ++ "\n"

/-- Model of `appendMessage(message, type, timestamp)` (source lines
443–450): when the output textarea exists, append a formatted line to
its value; otherwise do nothing.  (Scrolling is visual only.) -/
def appendMessage (message type timestamp : String) (s : ConsoleState) : ConsoleState :=
  match s.textarea with
  | none => s
  | some t => { s with textarea := some (t ++ fmtLine timestamp type message) }

/-- The history-recording step shared by `processInput` (source lines
404–407) and the draft-capture of `navigateHistory` (lines 210–215):
push `input.trim()` unless it equals the immediately preceding entry
(`length === 0 || last !== input.trim()`), persisting the list on the
mutation. -/
def recordHistory (input : String) (s : ConsoleState) : ConsoleState :=
  if s.inputHistory.getLast? = some (jsTrim input) then s
  else
    { s with
        inputHistory := s.inputHistory ++ [jsTrim input],
        persistedHistory := some (s.inputHistory ++ [jsTrim input]) }

/-- Model of the regex test `input.trim().match(/^(let|const|var|function|class)\s/)`
(source line 429): the string starts with one of the declaration
keywords immediately followed by a whitespace character.  First
argument: keyword characters; second: the string's characters. -/
def matchKeywordThenSpace : List Char → List Char → Bool
  | [], [] => false
  | [], c :: _ => isJsSpace c
  | _ :: _, [] => false
  | k :: kws, c :: cs => k == c && matchKeywordThenSpace kws cs

/-- The declaration-class keywords of the source's regex. -/
def jsDeclKeywords : List String := ["let", "const", "var", "function", "class"]

/-- Does the (already trimmed) input lexically begin a declaration-class
statement, per the source's regex on line 429? -/
def isDeclStatement (s : String) : Bool :=
  jsDeclKeywords.any fun kw => matchKeywordThenSpace kw.data s.data

/-- The marker line text the result-display branch of `processInput`
appends when the evaluation produced no defined value (source lines
429–433). -/
def resultMarker (trimmedInput : String) : String :=
  if isDeclStatement trimmedInput then "  < (Declaración ejecutada)"
  else "  < (undefined)"

/-- Model of `processInput(input)` (source lines 401–435).  The iframe's
`eval` is the oracle `iframeEval`; `now` is the wall-clock timestamp
used for the appended lines.  Result: the state after the call, paired
with `some msg` when an exception escaped the method (the only uncaught
throw site is `JSON.stringify(resultToDisplay, null, 2)` on line 427)
and `none` when the call returned normally. -/
def processInput (iframeEval : String → EvalResult) (now input : String)
    (s : ConsoleState) : ConsoleState × Option String :=
  if jsTrim input = "" then (s, none)
  else
    let s1 := recordHistory input s
    let s2 := appendMessage ("> " ++ input) "INPUT" now s1
    match s2.iframeWindow with
    | none =>
        (appendMessage "  Error: El contexto de la consola no está listo." "ERROR" now s2,
         none)
    | some _ =>
        let finalCodeToExecute := s2.cumulativeExecutedCode ++ "\n" ++ input
        let step :=
          match iframeEval finalCodeToExecute with
          | .ok v => ({ s2 with cumulativeExecutedCode := finalCodeToExecute }, v)
          | .thrown m => (appendMessage ("  Error: " ++ m) "ERROR" now s2, JsValue.undef)
        match step.2 with
        | .serializable str => (appendMessage ("  < " ++ str) "OUTPUT" now step.1, none)
        | .unserializable m => (step.1, some m)
        | .undef =>
            if isDeclStatement (jsTrim input) then
              (appendMessage "  < (Declaración ejecutada)" "OUTPUT" now step.1, none)
            else
              (appendMessage "  < (undefined)" "OUTPUT" now step.1, none)

/-- Model of `navigateHistory(direction)` (source lines 207–231):
no-op when the input element is absent; otherwise optionally capture the
current draft (on "up" from the fresh position with a non-blank input,
with the same dedup-and-persist step as submission), then move the
cursor by `direction`, clamp it into `[0, length]`, and show either an
empty input (fresh position) or the entry under the cursor. -/
def navigateHistory (direction : Int) (s : ConsoleState) : ConsoleState :=
  match s.inputValue with
  | none => s
  | some v =>
    let s1 :=
      if direction = -1 ∧ s.historyIndex = (s.inputHistory.length : Int) ∧ jsTrim v ≠ ""
      then recordHistory v s
      else s
    let idx0 := s1.historyIndex + direction
    let len : Int := (s1.inputHistory.length : Int)
    let idx := if idx0 < 0 then 0 else if len < idx0 then len else idx0
    if idx = len then
      { s1 with historyIndex := idx, inputValue := some "" }
    else
      { s1 with historyIndex := idx,
                inputValue := some (s1.inputHistory.getD idx.toNat "") }

/-- Model of `setupIframeContext` (source lines 236–289): when the
iframe element exists, establish a fresh execution context (fresh
`contentWindow` identity, with its own interception re-established);
when it does not, log to the original console and leave the context
as it was. -/
def setupIframeContext (s : ConsoleState) : ConsoleState :=
  if s.consoleIframe then
    { s with iframeWindow := some s.nextCtxGen, nextCtxGen := s.nextCtxGen + 1 }
  else s

/-- Model of `clearConsole` (source lines 455–462): empty the textarea
(when present), reset `cumulativeExecutedCode`, recreate the iframe
context, then append the system notice. -/
def clearConsole (now : String) (s : ConsoleState) : ConsoleState :=
  let s1 :=
    match s.textarea with
    | none => s
    | some _ => { s with textarea := some "" }
  let s2 := { s1 with cumulativeExecutedCode := "" }
  let s3 := setupIframeContext s2
  appendMessage "Consola y contexto de ejecución limpiados." "SYSTEM" now s3

/-- A concrete freshly-connected widget state used to instantiate the
theorems below on explicit inputs. -/
def sampleState : ConsoleState :=
  { textarea := some ""
    inputValue := some ""
    consoleIframe := true
    iframeWindow := some 0
    nextCtxGen := 1
    inputHistory := []
    historyIndex := 0
    isConsoleVisible := true
    lastKnownWidth := "80vw"
    lastKnownHeight := "25vh"
    cumulativeExecutedCode := ""
    persistedHistory := none
    persistedVisible := none
    persistedWidth := none
    persistedHeight := none }

/-- An evaluation oracle that always throws. -/
def evalBoom : String → EvalResult := fun _ => .thrown "boom"

/-- An evaluation oracle that always returns a serializable value. -/
def evalOkNum : String → EvalResult := fun _ => .ok (.serializable "2")

/-- An evaluation oracle whose result value is defined but cannot be
serialized (e.g. a self-referential object). -/
def evalCircular : String → EvalResult :=
  fun _ => .ok (.unserializable "Converting circular structure to JSON")

/-- An evaluation oracle that returns `undefined`. -/
def evalUndef : String → EvalResult := fun _ => .ok .undef

end VirtualConsole

namespace VirtualConsoleBufferOnly

open VirtualConsole (JsArg LogEntry Severity sevName formatConsoleMessage entryOfEvt)

/-- The module-level interception state of the earlier variant
`src/unnamed/part_000`: only the buffer (line 9), the lines appended to
the widget's textarea by `appendMessage`, and the forwarded original
calls — this variant has no `activeConsoleAppender`. -/
structure GlobalConsoleV where
  consoleMessageBuffer : List LogEntry
  displayed : List LogEntry
  originalCalls : List (String × List JsArg)
deriving DecidableEq

/-- Wrapped `console.log` of the variant (part_000 lines 13–19):
unconditionally push the entry on the buffer, then forward. -/
def consoleLog (now : String) (args : List JsArg) (g : GlobalConsoleV) : GlobalConsoleV :=
  let messageEntry : LogEntry :=
    { timestamp := now, type := "LOG", message := formatConsoleMessage args }
  { g with
      consoleMessageBuffer := g.consoleMessageBuffer ++ [messageEntry],
      originalCalls := g.originalCalls ++ [("LOG", args)] }

/-- Wrapped `console.warn` of the variant (part_000 lines 21–27). -/
def consoleWarn (now : String) (args : List JsArg) (g : GlobalConsoleV) : GlobalConsoleV :=
  let messageEntry : LogEntry :=
    { timestamp := now, type := "WARN", message := formatConsoleMessage args }
  { g with
      consoleMessageBuffer := g.consoleMessageBuffer ++ [messageEntry],
      originalCalls := g.originalCalls ++ [("WARN", args)] }

/-- Wrapped `console.error` of the variant (part_000 lines 29–35). -/
def consoleError (now : String) (args : List JsArg) (g : GlobalConsoleV) : GlobalConsoleV :=
  let messageEntry : LogEntry :=
    { timestamp := now, type := "ERROR", message := formatConsoleMessage args }
  { g with
      consoleMessageBuffer := g.consoleMessageBuffer ++ [messageEntry],
      originalCalls := g.originalCalls ++ [("ERROR", args)] }

/-- Dispatch one intercepted call of the variant. -/
def dispatchCallV : Severity → String → List JsArg → GlobalConsoleV → GlobalConsoleV
  | .log, now, args, g => consoleLog now args g
  | .warn, now, args, g => consoleWarn now args g
  | .error, now, args, g => consoleError now args g

/-- Run a sequence of intercepted calls of the variant in order. -/
def runCallsV (evts : List (Severity × String × List JsArg)) (g : GlobalConsoleV) :
    GlobalConsoleV :=
  evts.foldl (fun acc e => dispatchCallV e.1 e.2.1 e.2.2 acc) g

/-- The `while` loop of the variant's `flushMessageBuffer` (part_000
lines 349–354): shift each buffered entry and append it to the
display. -/
def drainBufferV : List LogEntry → List LogEntry → List LogEntry
  | [], acc => acc
  | e :: rest, acc => drainBufferV rest (acc ++ [e])

/-- Model of the variant's `flushMessageBuffer` (part_000 lines
349–354), the single flush the variant's `connectedCallback` performs
(line 167): drain the buffer to the textarea in FIFO order. -/
def flushMessageBufferV (g : GlobalConsoleV) : GlobalConsoleV :=
  { g with
      consoleMessageBuffer := [],
      displayed := drainBufferV g.consoleMessageBuffer g.displayed }

/-- The variant's interception state right after its top-level code
ran. -/
def initialGlobalV : GlobalConsoleV :=
  { consoleMessageBuffer := []
    displayed := []
    originalCalls := [] }

end VirtualConsoleBufferOnly

namespace VirtualConsole

theorem dispatchCall_none (sev : Severity) (now : String) (args : List JsArg)
    (g : GlobalConsole) (h : g.activeConsoleAppender = none) :
    dispatchCall sev now args g =
      { g with
          consoleMessageBuffer := g.consoleMessageBuffer ++ [entryOfEvt (sev, now, args)],
          originalCalls := g.originalCalls ++ [(sevName sev, args)] } := by
  cases sev <;>
    simp [dispatchCall, consoleLog, consoleWarn, consoleError, entryOfEvt, sevName, h]

theorem dispatchCall_some (sev : Severity) (now : String) (args : List JsArg)
    (g : GlobalConsole) (k : Nat) (h : g.activeConsoleAppender = some k) :
    dispatchCall sev now args g =
      { g with
          delivered := g.delivered ++ [(k, entryOfEvt (sev, now, args))],
          originalCalls := g.originalCalls ++ [(sevName sev, args)] } := by
  cases sev <;>
    simp [dispatchCall, consoleLog, consoleWarn, consoleError, entryOfEvt, sevName, h]

theorem drainBuffer_eq (k : Nat) (buf : List LogEntry) :
    ∀ acc, drainBuffer k buf acc = acc ++ buf.map (fun e => (k, e)) := by
  induction buf with
  | nil => intro acc; simp [drainBuffer]
  | cons e rest ih => intro acc; simp [drainBuffer, ih]

theorem runCalls_no_appender (evts : List (Severity × String × List JsArg)) :
    ∀ g : GlobalConsole, g.activeConsoleAppender = none →
      runCalls evts g =
        { g with
            consoleMessageBuffer := g.consoleMessageBuffer ++ evts.map entryOfEvt,
            originalCalls := g.originalCalls ++ evts.map (fun e => (sevName e.1, e.2.2)) } := by
  induction evts with
  | nil => intro g h; simp [runCalls]
  | cons e rest ih =>
      intro g h
      have hstep := dispatchCall_none e.1 e.2.1 e.2.2 g h
      have : runCalls (e :: rest) g = runCalls rest (dispatchCall e.1 e.2.1 e.2.2 g) := rfl
      rw [this, hstep, ih _ (by exact h)]
      simp [entryOfEvt]

/-- C2: after interception is installed, every invocation of the wrapped
`console.log`, `console.warn`, or `console.error` produces exactly one log
entry (the combined size of the delivered list and the capture buffer grows
by exactly one — nothing is duplicated or dropped); the entry is routed to
the active display appender when one is set and otherwise appended to the
capture buffer; and in every case the original arguments are forwarded to
the original console function. -/
theorem console_interception_routes_exactly_one (sev : Severity) (now : String)
    (args : List JsArg) (g : GlobalConsole) :
    ((dispatchCall sev now args g).delivered.length
        + (dispatchCall sev now args g).consoleMessageBuffer.length
      = g.delivered.length + g.consoleMessageBuffer.length + 1)
    ∧ (dispatchCall sev now args g).originalCalls
        = g.originalCalls ++ [(sevName sev, args)]
    ∧ (g.activeConsoleAppender = none →
        (dispatchCall sev now args g).consoleMessageBuffer
            = g.consoleMessageBuffer ++ [entryOfEvt (sev, now, args)]
        ∧ (dispatchCall sev now args g).delivered = g.delivered)
    ∧ (∀ k, g.activeConsoleAppender = some k →
        (dispatchCall sev now args g).delivered
            = g.delivered ++ [(k, entryOfEvt (sev, now, args))]
        ∧ (dispatchCall sev now args g).consoleMessageBuffer
            = g.consoleMessageBuffer) := by
  rcases h : g.activeConsoleAppender with _ | k
  · rw [dispatchCall_none sev now args g h]
    refine ⟨?_, rfl, fun _ => ⟨rfl, rfl⟩, fun k2 hk => ?_⟩
    · simp only [List.length_append, List.length_cons, List.length_nil]
      omega
    · simp at hk
  · rw [dispatchCall_some sev now args g k h]
    refine ⟨?_, rfl, fun hn => ?_, fun k2 hk => ?_⟩
    · simp only [List.length_append, List.length_cons, List.length_nil]
      omega
    · simp at hn
    · cases hk
      exact ⟨rfl, rfl⟩

theorem console_interception_routes_exactly_one_witness :
    (dispatchCall .log "t" [.prim "hi"] initialGlobal).consoleMessageBuffer
      = [{ timestamp := "t", type := "LOG", message := "hi" }] := by
  have h :=
    (console_interception_routes_exactly_one .log "t" [.prim "hi"] initialGlobal).2.2.1 rfl
  simpa [initialGlobal, entryOfEvt, sevName, formatConsoleMessage, formatArg] using h.1

/-- C3: for any sequence of log calls made while no display is attached,
once a widget attaches (`connectedCallback` registers its appender and calls
`flushMessageBuffer`) the display receives all buffered entries in original
call order with no duplicates or omissions, the buffer ends empty, and any
subsequent live-routed entry is appended after the flushed ones. -/
theorem buffered_logs_flushed_in_order_on_attach
    (pre : List (Severity × String × List JsArg)) :
    ((connectedCallback (runCalls pre initialGlobal)).delivered
        = pre.map (fun e => (0, entryOfEvt e)))
    ∧ (connectedCallback (runCalls pre initialGlobal)).consoleMessageBuffer = []
    ∧ (connectedCallback (runCalls pre initialGlobal)).activeConsoleAppender = some 0
    ∧ ∀ sev now args,
        (dispatchCall sev now args (connectedCallback (runCalls pre initialGlobal))).delivered
          = (connectedCallback (runCalls pre initialGlobal)).delivered
              ++ [(0, entryOfEvt (sev, now, args))] := by
  have hcc : ∀ g : GlobalConsole,
      connectedCallback g =
        { g with
            consoleMessageBuffer := [],
            delivered := g.delivered ++ g.consoleMessageBuffer.map (fun e => (g.nextFnId, e)),
            activeConsoleAppender := some g.nextFnId,
            nextFnId := g.nextFnId + 1 } := by
    intro g
    simp [connectedCallback, flushMessageBuffer, drainBuffer_eq]
  rw [runCalls_no_appender pre initialGlobal rfl, hcc]
  refine ⟨?_, rfl, rfl, ?_⟩
  · simp [initialGlobal]
  · intro sev now args
    rw [dispatchCall_some sev now args _ 0 rfl]

/-- C4 (evaluation of the code at the failing input): a single widget
attaches — `connectedCallback` registers `this.appendMessage.bind(this)`
(identity 0) as the active appender — and then detaches.  Because
`disconnectedCallback` compares the slot with a freshly allocated
`this.appendMessage.bind(this)` (a new function identity), the guard is
false and the slot still holds the detached widget's appender afterwards:
the owner's teardown leaves its own registration dangling, contradicting
the claim. -/
theorem disconnectedCallback_never_clears_own_appender :
    (disconnectedCallback (connectedCallback initialGlobal)).activeConsoleAppender
      = some 0 := by decide

end VirtualConsole

namespace VirtualConsoleBufferOnly

open VirtualConsole (Severity sevName entryOfEvt JsArg)

theorem dispatchCallV_eq (sev : Severity) (now : String) (args : List JsArg)
    (g : GlobalConsoleV) :
    dispatchCallV sev now args g =
      { g with
          consoleMessageBuffer := g.consoleMessageBuffer ++ [entryOfEvt (sev, now, args)],
          originalCalls := g.originalCalls ++ [(sevName sev, args)] } := by
  cases sev <;> rfl

theorem runCallsV_eq (evts : List (Severity × String × List JsArg)) :
    ∀ g : GlobalConsoleV,
      runCallsV evts g =
        { g with
            consoleMessageBuffer := g.consoleMessageBuffer ++ evts.map entryOfEvt,
            originalCalls := g.originalCalls ++ evts.map (fun e => (sevName e.1, e.2.2)) } := by
  induction evts with
  | nil => intro g; simp [runCallsV]
  | cons e rest ih =>
      intro g
      have : runCallsV (e :: rest) g = runCallsV rest (dispatchCallV e.1 e.2.1 e.2.2 g) := rfl
      rw [this, dispatchCallV_eq, ih]
      simp [entryOfEvt]

theorem drainBufferV_eq (buf : List VirtualConsole.LogEntry) :
    ∀ acc, drainBufferV buf acc = acc ++ buf := by
  induction buf with
  | nil => intro acc; simp [drainBufferV]
  | cons e rest ih => intro acc; simp [drainBufferV, ih]

/-- C10: in the variant at `src/unnamed/part_000` there is no active-display
route: every intercepted `console.log` / `console.warn` / `console.error`
call unconditionally pushes its entry onto the capture buffer and forwards
the original arguments, never touching the display directly; and after the
single `flushMessageBuffer` performed during `connectedCallback`, all
pre-flush entries are displayed in order while any log call made after that
flush accumulates in the buffer and is never appended to the display. -/
theorem variant_buffers_all_calls_and_never_displays_after_flush
    (pre post : List (Severity × String × List JsArg)) :
    (∀ sev now args g,
        (dispatchCallV sev now args g).consoleMessageBuffer
            = g.consoleMessageBuffer ++ [entryOfEvt (sev, now, args)]
        ∧ (dispatchCallV sev now args g).displayed = g.displayed
        ∧ (dispatchCallV sev now args g).originalCalls
            = g.originalCalls ++ [(sevName sev, args)])
    ∧ (flushMessageBufferV (runCallsV pre initialGlobalV)).displayed
        = pre.map entryOfEvt
    ∧ (runCallsV post (flushMessageBufferV (runCallsV pre initialGlobalV))).displayed
        = (flushMessageBufferV (runCallsV pre initialGlobalV)).displayed
    ∧ (runCallsV post (flushMessageBufferV (runCallsV pre initialGlobalV))).consoleMessageBuffer
        = post.map entryOfEvt := by
  refine ⟨fun sev now args g => by rw [dispatchCallV_eq]; exact ⟨rfl, rfl, rfl⟩, ?_, ?_, ?_⟩
  · rw [runCallsV_eq pre initialGlobalV]
    simp [initialGlobalV, flushMessageBufferV, drainBufferV_eq]
  · rw [runCallsV_eq post _]
  · rw [runCallsV_eq post _]
    simp [flushMessageBufferV]

end VirtualConsoleBufferOnly

namespace VirtualConsole

@[simp] theorem string_empty_append (s : String) : "" ++ s = s := rfl

@[simp] theorem appendMessage_textarea (m ty ts : String) (s : ConsoleState) :
    (appendMessage m ty ts s).textarea = s.textarea.map (fun t => t ++ fmtLine ts ty m) := by
  unfold appendMessage
  cases h : s.textarea <;> simp [h]

@[simp] theorem appendMessage_iframeWindow (m ty ts : String) (s : ConsoleState) :
    (appendMessage m ty ts s).iframeWindow = s.iframeWindow := by
  unfold appendMessage; split <;> rfl

@[simp] theorem appendMessage_cumulativeExecutedCode (m ty ts : String) (s : ConsoleState) :
    (appendMessage m ty ts s).cumulativeExecutedCode = s.cumulativeExecutedCode := by
  unfold appendMessage; split <;> rfl

@[simp] theorem appendMessage_inputHistory (m ty ts : String) (s : ConsoleState) :
    (appendMessage m ty ts s).inputHistory = s.inputHistory := by
  unfold appendMessage; split <;> rfl

@[simp] theorem appendMessage_persistedHistory (m ty ts : String) (s : ConsoleState) :
    (appendMessage m ty ts s).persistedHistory = s.persistedHistory := by
  unfold appendMessage; split <;> rfl

@[simp] theorem appendMessage_historyIndex (m ty ts : String) (s : ConsoleState) :
    (appendMessage m ty ts s).historyIndex = s.historyIndex := by
  unfold appendMessage; split <;> rfl

@[simp] theorem appendMessage_inputValue (m ty ts : String) (s : ConsoleState) :
    (appendMessage m ty ts s).inputValue = s.inputValue := by
  unfold appendMessage; split <;> rfl

@[simp] theorem appendMessage_consoleIframe (m ty ts : String) (s : ConsoleState) :
    (appendMessage m ty ts s).consoleIframe = s.consoleIframe := by
  unfold appendMessage; split <;> rfl

@[simp] theorem appendMessage_nextCtxGen (m ty ts : String) (s : ConsoleState) :
    (appendMessage m ty ts s).nextCtxGen = s.nextCtxGen := by
  unfold appendMessage; split <;> rfl

@[simp] theorem appendMessage_isConsoleVisible (m ty ts : String) (s : ConsoleState) :
    (appendMessage m ty ts s).isConsoleVisible = s.isConsoleVisible := by
  unfold appendMessage; split <;> rfl

@[simp] theorem appendMessage_lastKnownWidth (m ty ts : String) (s : ConsoleState) :
    (appendMessage m ty ts s).lastKnownWidth = s.lastKnownWidth := by
  unfold appendMessage; split <;> rfl

@[simp] theorem appendMessage_lastKnownHeight (m ty ts : String) (s : ConsoleState) :
    (appendMessage m ty ts s).lastKnownHeight = s.lastKnownHeight := by
  unfold appendMessage; split <;> rfl

@[simp] theorem appendMessage_persistedVisible (m ty ts : String) (s : ConsoleState) :
    (appendMessage m ty ts s).persistedVisible = s.persistedVisible := by
  unfold appendMessage; split <;> rfl

@[simp] theorem appendMessage_persistedWidth (m ty ts : String) (s : ConsoleState) :
    (appendMessage m ty ts s).persistedWidth = s.persistedWidth := by
  unfold appendMessage; split <;> rfl

@[simp] theorem appendMessage_persistedHeight (m ty ts : String) (s : ConsoleState) :
    (appendMessage m ty ts s).persistedHeight = s.persistedHeight := by
  unfold appendMessage; split <;> rfl

@[simp] theorem recordHistory_textarea (input : String) (s : ConsoleState) :
    (recordHistory input s).textarea = s.textarea := by
  unfold recordHistory; split <;> rfl

@[simp] theorem recordHistory_iframeWindow (input : String) (s : ConsoleState) :
    (recordHistory input s).iframeWindow = s.iframeWindow := by
  unfold recordHistory; split <;> rfl

@[simp] theorem recordHistory_cumulativeExecutedCode (input : String) (s : ConsoleState) :
    (recordHistory input s).cumulativeExecutedCode = s.cumulativeExecutedCode := by
  unfold recordHistory; split <;> rfl

@[simp] theorem recordHistory_historyIndex (input : String) (s : ConsoleState) :
    (recordHistory input s).historyIndex = s.historyIndex := by
  unfold recordHistory; split <;> rfl

@[simp] theorem recordHistory_inputValue (input : String) (s : ConsoleState) :
    (recordHistory input s).inputValue = s.inputValue := by
  unfold recordHistory; split <;> rfl

@[simp] theorem recordHistory_consoleIframe (input : String) (s : ConsoleState) :
    (recordHistory input s).consoleIframe = s.consoleIframe := by
  unfold recordHistory; split <;> rfl

@[simp] theorem recordHistory_nextCtxGen (input : String) (s : ConsoleState) :
    (recordHistory input s).nextCtxGen = s.nextCtxGen := by
  unfold recordHistory; split <;> rfl

@[simp] theorem recordHistory_isConsoleVisible (input : String) (s : ConsoleState) :
    (recordHistory input s).isConsoleVisible = s.isConsoleVisible := by
  unfold recordHistory; split <;> rfl

theorem recordHistory_skip (input : String) (s : ConsoleState)
    (h : s.inputHistory.getLast? = some (jsTrim input)) :
    recordHistory input s = s := by
  unfold recordHistory; rw [if_pos h]

theorem recordHistory_push (input : String) (s : ConsoleState)
    (h : s.inputHistory.getLast? ≠ some (jsTrim input)) :
    recordHistory input s =
      { s with
          inputHistory := s.inputHistory ++ [jsTrim input],
          persistedHistory := some (s.inputHistory ++ [jsTrim input]) } := by
  unfold recordHistory; rw [if_neg h]

theorem recordHistory_inputHistory_eq (input : String) (s : ConsoleState) :
    (recordHistory input s).inputHistory =
      if s.inputHistory.getLast? = some (jsTrim input) then s.inputHistory
      else s.inputHistory ++ [jsTrim input] := by
  by_cases h : s.inputHistory.getLast? = some (jsTrim input)
  · rw [recordHistory_skip input s h, if_pos h]
  · rw [recordHistory_push input s h, if_neg h]

theorem recordHistory_getLast (input : String) (s : ConsoleState) :
    (recordHistory input s).inputHistory.getLast? = some (jsTrim input) := by
  by_cases h : s.inputHistory.getLast? = some (jsTrim input)
  · rw [recordHistory_skip input s h]; exact h
  · rw [recordHistory_push input s h]; simp

theorem processInput_fst_frame (iframeEval : String → EvalResult) (now input : String)
    (s : ConsoleState) :
    (processInput iframeEval now input s).1.inputHistory
        = (if jsTrim input = "" then s else recordHistory input s).inputHistory
    ∧ (processInput iframeEval now input s).1.persistedHistory
        = (if jsTrim input = "" then s else recordHistory input s).persistedHistory
    ∧ (processInput iframeEval now input s).1.iframeWindow = s.iframeWindow
    ∧ (processInput iframeEval now input s).1.historyIndex = s.historyIndex
    ∧ (processInput iframeEval now input s).1.inputValue = s.inputValue := by
  by_cases he : jsTrim input = ""
  · simp [processInput, he]
  · simp only [processInput, if_neg he]
    rcases hw : s.iframeWindow with _ | gg
    · simp [hw, he]
    · simp only [appendMessage_iframeWindow, recordHistory_iframeWindow, hw,
        appendMessage_cumulativeExecutedCode, recordHistory_cumulativeExecutedCode]
      rcases hev : iframeEval (s.cumulativeExecutedCode ++ "\n" ++ input) with v | m
      · rcases v with _ | str | m2 <;>
          by_cases hd : isDeclStatement (jsTrim input) <;>
          simp [hev, hd, he, hw]
      · by_cases hd : isDeclStatement (jsTrim input) <;> simp [hev, hd, he, hw]

/-- C7: on an accepted submission the (trimmed) input is appended to the
command history exactly when it is non-empty after trimming and not
identical to the immediately preceding history entry; the list is persisted
on that mutation; and submitting the same non-empty text twice in a row
appends only one occurrence. -/
theorem processInput_history_dedup (iframeEval : String → EvalResult)
    (now input : String) (s : ConsoleState) :
    ((processInput iframeEval now input s).1.inputHistory =
        if jsTrim input ≠ "" ∧ s.inputHistory.getLast? ≠ some (jsTrim input)
        then s.inputHistory ++ [jsTrim input] else s.inputHistory)
    ∧ (jsTrim input ≠ "" → s.inputHistory.getLast? ≠ some (jsTrim input) →
        (processInput iframeEval now input s).1.persistedHistory
          = some (s.inputHistory ++ [jsTrim input]))
    ∧ (jsTrim input ≠ "" → ∀ iframeEval2 now2,
        (processInput iframeEval2 now2 input
            (processInput iframeEval now input s).1).1.inputHistory
          = (processInput iframeEval now input s).1.inputHistory) := by
  have hfr := processInput_fst_frame iframeEval now input s
  refine ⟨?_, ?_, ?_⟩
  · rw [hfr.1]
    by_cases he : jsTrim input = ""
    · simp [he]
    · by_cases hl : s.inputHistory.getLast? = some (jsTrim input)
      · rw [if_neg he, recordHistory_skip input s hl]
        simp [he, hl]
      · rw [if_neg he, recordHistory_push input s hl]
        simp [he, hl]
  · intro he hl
    rw [hfr.2.1, if_neg he, recordHistory_push input s hl]
  · intro he iframeEval2 now2
    have hfr2 := processInput_fst_frame iframeEval2 now2 input
      (processInput iframeEval now input s).1
    rw [hfr2.1, if_neg he]
    have hlast : (processInput iframeEval now input s).1.inputHistory.getLast?
        = some (jsTrim input) := by
      rw [hfr.1, if_neg he]
      exact recordHistory_getLast input s
    rw [recordHistory_skip input _ hlast]

theorem processInput_history_dedup_witness :
    (processInput evalOkNum "t" "x+1" sampleState).1.inputHistory = ["x+1"]
    ∧ (processInput evalOkNum "t" "x+1"
        (processInput evalOkNum "t" "x+1" sampleState).1).1.inputHistory = ["x+1"] := by
  have h := processInput_history_dedup evalOkNum "t" "x+1" sampleState
  have h1 : (processInput evalOkNum "t" "x+1" sampleState).1.inputHistory = ["x+1"] := by
    rw [h.1]; decide
  refine ⟨h1, ?_⟩
  rw [h.2.2 (by decide) evalOkNum "t", h1]

/-- C1: for a submission of non-blank user text with an established
evaluation context and a present display: when evaluating the candidate
`cumulativeExecutedCode ++ "\n" ++ input` throws, `cumulativeExecutedCode`
is unchanged afterwards (the candidate is discarded and the failure's
message is displayed tagged ERROR), and when the evaluation succeeds,
`cumulativeExecutedCode` equals the candidate afterwards (commit); so a
subsequent submission re-uses the pre-failure program. -/
theorem processInput_failure_discards_success_commits
    (iframeEval : String → EvalResult) (now input : String) (s : ConsoleState)
    (gen : Nat) (t : String)
    (hne : jsTrim input ≠ "") (hctx : s.iframeWindow = some gen)
    (hta : s.textarea = some t) :
    (∀ msg, iframeEval (s.cumulativeExecutedCode ++ "\n" ++ input) = .thrown msg →
        (processInput iframeEval now input s).1.cumulativeExecutedCode
            = s.cumulativeExecutedCode
        ∧ (processInput iframeEval now input s).1.textarea
            = some (t ++ fmtLine now "INPUT" ("> " ++ input)
                ++ fmtLine now "ERROR" ("  Error: " ++ msg)
                ++ fmtLine now "OUTPUT" (resultMarker (jsTrim input))))
    ∧ (∀ v, iframeEval (s.cumulativeExecutedCode ++ "\n" ++ input) = .ok v →
        (processInput iframeEval now input s).1.cumulativeExecutedCode
            = s.cumulativeExecutedCode ++ "\n" ++ input) := by
  constructor
  · intro msg hev
    simp only [processInput, if_neg hne, appendMessage_iframeWindow,
      recordHistory_iframeWindow, hctx, appendMessage_cumulativeExecutedCode,
      recordHistory_cumulativeExecutedCode, hev]
    by_cases hd : isDeclStatement (jsTrim input) <;>
      simp [hd, resultMarker, hta]
  · intro v hev
    simp only [processInput, if_neg hne, appendMessage_iframeWindow,
      recordHistory_iframeWindow, hctx, appendMessage_cumulativeExecutedCode,
      recordHistory_cumulativeExecutedCode, hev]
    rcases v with _ | str | m <;>
      by_cases hd : isDeclStatement (jsTrim input) <;> simp [hd]

theorem processInput_failure_discards_success_commits_witness :
    (processInput evalBoom "t" "1+" sampleState).1.cumulativeExecutedCode = ""
    ∧ (processInput evalOkNum "t" "1+1" sampleState).1.cumulativeExecutedCode = "\n1+1" := by
  constructor
  · exact ((processInput_failure_discards_success_commits evalBoom "t" "1+" sampleState 0 ""
      (by decide) rfl rfl).1 "boom" rfl).1
  · exact (processInput_failure_discards_success_commits evalOkNum "t" "1+1" sampleState 0 ""
      (by decide) rfl rfl).2 (.serializable "2") rfl

/-- C9: for a submission whose evaluation throws (non-blank input,
established context, display present), `processInput` still executes the
result-display branch after the ERROR line: it appends one more OUTPUT
line, "(Declaración ejecutada)" when the trimmed input begins with a
declaration keyword and "(undefined)" otherwise, and the call returns
normally — a failed submission produces both an ERROR line and a
result-marker line. -/
theorem processInput_error_branch_appends_marker
    (iframeEval : String → EvalResult) (now input : String) (s : ConsoleState)
    (gen : Nat) (t msg : String)
    (hne : jsTrim input ≠ "") (hctx : s.iframeWindow = some gen)
    (hta : s.textarea = some t)
    (hev : iframeEval (s.cumulativeExecutedCode ++ "\n" ++ input) = .thrown msg) :
    ((processInput iframeEval now input s).1.textarea
        = some (t ++ fmtLine now "INPUT" ("> " ++ input)
            ++ fmtLine now "ERROR" ("  Error: " ++ msg)
            ++ fmtLine now "OUTPUT" (resultMarker (jsTrim input))))
    ∧ (processInput iframeEval now input s).2 = none
    ∧ (isDeclStatement (jsTrim input) = true →
        resultMarker (jsTrim input) = "  < (Declaración ejecutada)")
    ∧ (isDeclStatement (jsTrim input) = false →
        resultMarker (jsTrim input) = "  < (undefined)") := by
  refine ⟨?_, ?_, fun hd => by simp [resultMarker, hd], fun hd => by simp [resultMarker, hd]⟩
  · simp only [processInput, if_neg hne, appendMessage_iframeWindow,
      recordHistory_iframeWindow, hctx, appendMessage_cumulativeExecutedCode,
      recordHistory_cumulativeExecutedCode, hev]
    by_cases hd : isDeclStatement (jsTrim input) <;>
      simp [hd, resultMarker, hta]
  · simp only [processInput, if_neg hne, appendMessage_iframeWindow,
      recordHistory_iframeWindow, hctx, appendMessage_cumulativeExecutedCode,
      recordHistory_cumulativeExecutedCode, hev]
    by_cases hd : isDeclStatement (jsTrim input) <;> simp [hd]

theorem processInput_error_branch_appends_marker_witness :
    (processInput evalBoom "12:00" "let x = 1" sampleState).1.textarea
      = some ("[12:00] [INPUT] > let x = 1\n[12:00] [ERROR]   Error: boom\n"
          ++ "[12:00] [OUTPUT]   < (Declaración ejecutada)\n") := by
  have h := processInput_error_branch_appends_marker evalBoom "12:00" "let x = 1"
    sampleState 0 "" "boom" (by decide) rfl rfl rfl
  rw [h.1]
  decide

/-- C5, counterexample: a submission whose evaluation succeeds with a
defined result value whose structural serialization fails (a
self-referential structure) makes `processInput` propagate the
serialization exception — `JSON.stringify(resultToDisplay, null, 2)` in
the result-display branch is unguarded — so the claim that `processInput`
never throws for any value produced by the evaluation is false at this
input. -/
theorem processInput_throws_on_unserializable_result :
    (processInput evalCircular "12:00" "self" sampleState).2
      = some "Converting circular structure to JSON" := by decide

/-- C5 (amended): no operation of the widget model propagates an exception
except in one case: `processInput` returns normally for every user input,
state, and evaluation outcome (blank input, missing context, throwing
evaluation, undefined result, serializable result), provided the
evaluation does not succeed with a defined result value whose structural
serialization fails; in that remaining case the serialization exception
escapes (see the counterexample). -/
theorem processInput_no_escape_without_serialization_failure
    (iframeEval : String → EvalResult) (now input : String) (s : ConsoleState)
    (h : ∀ m, iframeEval (s.cumulativeExecutedCode ++ "\n" ++ input)
          ≠ .ok (.unserializable m)) :
    (processInput iframeEval now input s).2 = none := by
  by_cases he : jsTrim input = ""
  · simp [processInput, he]
  · simp only [processInput, if_neg he, appendMessage_iframeWindow,
      recordHistory_iframeWindow, appendMessage_cumulativeExecutedCode,
      recordHistory_cumulativeExecutedCode]
    rcases hw : s.iframeWindow with _ | gg
    · simp
    · rcases hev : iframeEval (s.cumulativeExecutedCode ++ "\n" ++ input) with v | m
      · rcases v with _ | str | m2
        · by_cases hd : isDeclStatement (jsTrim input) <;> simp [hev, hd]
        · simp [hev]
        · exact absurd hev (h m2)
      · by_cases hd : isDeclStatement (jsTrim input) <;> simp [hev, hd]

theorem processInput_no_escape_without_serialization_failure_witness :
    (processInput evalBoom "t" "1+" sampleState).2 = none :=
  processInput_no_escape_without_serialization_failure evalBoom "t" "1+" sampleState
    (fun m hm => by simp [evalBoom] at hm)

/-- C6: the Clear action empties the displayed text and appends the system
notice (afterwards the display holds exactly the notice line), resets
`cumulativeExecutedCode` to the empty string, tears down and recreates the
evaluation context (the context handle afterwards is fresh, different from
the previous one), and leaves the command history, its persisted copy, and
the visual state (visibility flag, width, height, and their persisted
copies) unchanged. -/
theorem clearConsole_resets_program_and_context_only (now : String) (s : ConsoleState)
    (t : String) (hta : s.textarea = some t) (hfr : s.consoleIframe = true)
    (hgen : ∀ g, s.iframeWindow = some g → g < s.nextCtxGen) :
    ((clearConsole now s).textarea
        = some (fmtLine now "SYSTEM" "Consola y contexto de ejecución limpiados."))
    ∧ (clearConsole now s).cumulativeExecutedCode = ""
    ∧ (clearConsole now s).iframeWindow = some s.nextCtxGen
    ∧ (clearConsole now s).iframeWindow ≠ s.iframeWindow
    ∧ (clearConsole now s).inputHistory = s.inputHistory
    ∧ (clearConsole now s).persistedHistory = s.persistedHistory
    ∧ (clearConsole now s).isConsoleVisible = s.isConsoleVisible
    ∧ (clearConsole now s).lastKnownWidth = s.lastKnownWidth
    ∧ (clearConsole now s).lastKnownHeight = s.lastKnownHeight
    ∧ (clearConsole now s).persistedVisible = s.persistedVisible
    ∧ (clearConsole now s).persistedWidth = s.persistedWidth
    ∧ (clearConsole now s).persistedHeight = s.persistedHeight := by
  have hc : clearConsole now s =
      { s with
          textarea := some (fmtLine now "SYSTEM" "Consola y contexto de ejecución limpiados."),
          cumulativeExecutedCode := "",
          iframeWindow := some s.nextCtxGen,
          nextCtxGen := s.nextCtxGen + 1 } := by
    simp [clearConsole, setupIframeContext, appendMessage, hta, hfr]
  rw [hc]
  refine ⟨rfl, rfl, rfl, ?_, rfl, rfl, rfl, rfl, rfl, rfl, rfl, rfl⟩
  rcases hiw : s.iframeWindow with _ | g
  · simp
  · have hlt := hgen g hiw
    simp only [ne_eq, Option.some.injEq]
    omega

theorem clearConsole_resets_program_and_context_only_witness :
    (clearConsole "t" sampleState).cumulativeExecutedCode = ""
    ∧ (clearConsole "t" sampleState).iframeWindow = some 1
    ∧ (clearConsole "t" sampleState).iframeWindow ≠ sampleState.iframeWindow := by
  have h := clearConsole_resets_program_and_context_only "t" sampleState "" rfl rfl
    (fun g hg => by simp [sampleState] at hg ⊢; omega)
  exact ⟨h.2.1, h.2.2.1, h.2.2.2.1⟩

theorem consoleState_update_self (s : ConsoleState) (hidx : s.historyIndex = 0)
    (hval : s.inputValue = some "") (hemp : s.inputHistory = []) :
    ({ s with inputValue := some "", inputHistory := [], historyIndex := 0 } : ConsoleState)
      = s := by
  cases s
  simp_all

/-- C8: history navigation is a total function (it never throws) and keeps
the cursor within `[0, N]` for `N` the (possibly draft-extended) history
length after the move; navigating down with the cursor at or beyond `N`
leaves the cursor at `N` with the input cleared; navigating up with the
cursor at 0 keeps it clamped at 0; and with an empty history, cursor 0 and
an empty input, navigation in either direction changes nothing. -/
theorem navigateHistory_cursor_bounds (s : ConsoleState) (d : Int) (v : String)
    (hv : s.inputValue = some v) :
    (0 ≤ (navigateHistory d s).historyIndex
      ∧ (navigateHistory d s).historyIndex
          ≤ ((navigateHistory d s).inputHistory.length : Int))
    ∧ (d = 1 → (s.inputHistory.length : Int) ≤ s.historyIndex →
        (navigateHistory d s).historyIndex
            = ((navigateHistory d s).inputHistory.length : Int)
        ∧ (navigateHistory d s).inputValue = some "")
    ∧ (d = -1 → s.historyIndex = 0 → (navigateHistory d s).historyIndex = 0)
    ∧ (s.inputHistory = [] → s.historyIndex = 0 → v = "" →
        navigateHistory d s = s) := by
  refine ⟨?_, ?_, ?_, ?_⟩
  · simp only [navigateHistory, hv]
    set s1 := if d = -1 ∧ s.historyIndex = (s.inputHistory.length : Int) ∧ jsTrim v ≠ ""
        then recordHistory v s else s
    by_cases h1 : s1.historyIndex + d < 0
    · rw [if_pos h1]
      by_cases h2 : (0 : Int) = (s1.inputHistory.length : Int)
      · rw [if_pos h2]
        show (0 : Int) ≤ 0 ∧ (0 : Int) ≤ (s1.inputHistory.length : Int)
        omega
      · rw [if_neg h2]
        show (0 : Int) ≤ 0 ∧ (0 : Int) ≤ (s1.inputHistory.length : Int)
        omega
    · rw [if_neg h1]
      by_cases h3 : (s1.inputHistory.length : Int) < s1.historyIndex + d
      · rw [if_pos h3, if_pos rfl]
        show (0 : Int) ≤ (s1.inputHistory.length : Int)
            ∧ (s1.inputHistory.length : Int) ≤ (s1.inputHistory.length : Int)
        omega
      · rw [if_neg h3]
        by_cases h4 : s1.historyIndex + d = (s1.inputHistory.length : Int)
        · rw [if_pos h4]
          show (0 : Int) ≤ s1.historyIndex + d
              ∧ s1.historyIndex + d ≤ (s1.inputHistory.length : Int)
          omega
        · rw [if_neg h4]
          show (0 : Int) ≤ s1.historyIndex + d
              ∧ s1.historyIndex + d ≤ (s1.inputHistory.length : Int)
          omega
  · intro hd hge
    subst hd
    simp only [navigateHistory, hv]
    rw [if_neg (show ¬((1 : Int) = -1 ∧ s.historyIndex = (s.inputHistory.length : Int)
        ∧ jsTrim v ≠ "") by rintro ⟨h1, -, -⟩; norm_num at h1)]
    rw [if_neg (show ¬(s.historyIndex + 1 < 0) by omega),
        if_pos (show (s.inputHistory.length : Int) < s.historyIndex + 1 by omega),
        if_pos rfl]
    exact ⟨rfl, rfl⟩
  · intro hd h0
    subst hd
    simp only [navigateHistory, hv, eq_self_iff_true, true_and]
    by_cases hc : s.historyIndex = (s.inputHistory.length : Int) ∧ jsTrim v ≠ ""
    · rw [if_pos hc]
      simp only [recordHistory_historyIndex, h0]
      rw [if_pos (show (0 : Int) + -1 < 0 by norm_num)]
      split <;> rfl
    · rw [if_neg hc]
      simp only [h0]
      rw [if_pos (show (0 : Int) + -1 < 0 by norm_num)]
      split <;> rfl
  · intro hemp h0 hveq
    subst hveq
    simp only [navigateHistory, hv]
    rw [if_neg (show ¬(d = -1 ∧ s.historyIndex = (s.inputHistory.length : Int)
        ∧ jsTrim "" ≠ "") by rintro ⟨-, -, h3⟩; exact h3 rfl)]
    simp only [hemp, h0, List.length_nil, Nat.cast_zero, zero_add]
    rcases lt_trichotomy d 0 with hd | hd | hd
    · rw [if_pos hd, if_pos rfl]
      exact consoleState_update_self s h0 hv hemp
    · subst hd
      rw [if_neg (show ¬((0 : Int) < 0) by norm_num),
          if_neg (show ¬((0 : Int) < 0) by norm_num), if_pos rfl]
      exact consoleState_update_self s h0 hv hemp
    · rw [if_neg (show ¬(d < 0) by omega), if_pos hd, if_pos rfl]
      exact consoleState_update_self s h0 hv hemp

theorem navigateHistory_cursor_bounds_witness :
    navigateHistory 1 sampleState = sampleState
    ∧ navigateHistory (-1) sampleState = sampleState := by
  have h1 := (navigateHistory_cursor_bounds sampleState 1 "" rfl).2.2.2 rfl rfl rfl
  have h2 := (navigateHistory_cursor_bounds sampleState (-1) "" rfl).2.2.2 rfl rfl rfl
  exact ⟨h1, h2⟩

end VirtualConsole
